import Mathlib

/-
Verification development for the MQ135 gas sensor library (src/MQ135.cpp).
Floating point arithmetic of the source is modelled over the real numbers,
and the C pow function over positive bases is modelled by Real.rpow.
The analogRead primitive is an external collaborator and is modelled as an
arbitrary function from pin numbers to integer samples.
-/

namespace MQ135Spec

/-- Modelled from the spec: default load resistance constant RLOAD, declared in
the header MQ135.h which is not under src/; the spec mandates the
datasheet-derived constants of the reference implementation unchanged. -/
noncomputable def RLOAD : ℝ := 10.0

/-- Modelled from the spec: default calibration reference resistance constant
RZERO, declared in the header MQ135.h which is not under src/. -/
noncomputable def RZERO : ℝ := 76.63

/-- Modelled from the spec: default atmospheric CO2 baseline constant ATMOCO2,
declared in the header MQ135.h which is not under src/. -/
noncomputable def ATMOCO2 : ℝ := 397.13

/-- Modelled from the spec: correction polynomial constant CORA from MQ135.h. -/
noncomputable def CORA : ℝ := 0.00035

/-- Modelled from the spec: correction polynomial constant CORB from MQ135.h. -/
noncomputable def CORB : ℝ := 0.02718

/-- Modelled from the spec: correction polynomial constant CORC from MQ135.h. -/
noncomputable def CORC : ℝ := 1.39538

/-- Modelled from the spec: correction polynomial constant CORD from MQ135.h. -/
noncomputable def CORD : ℝ := 0.0018

/-- Modelled from the spec: correction line constant CORE from MQ135.h. -/
noncomputable def CORE : ℝ := -0.003333333

/-- Modelled from the spec: correction line constant CORF from MQ135.h. -/
noncomputable def CORF : ℝ := -0.001923077

/-- Modelled from the spec: correction line constant CORG from MQ135.h. -/
noncomputable def CORG : ℝ := 1.130128205

/-- Modelled from the spec: power law constant PARA from MQ135.h. -/
noncomputable def PARA : ℝ := 116.6020682

/-- Modelled from the spec: power law constant PARB from MQ135.h. -/
noncomputable def PARB : ℝ := 2.769034857

/-- The MQ135 object state: the analog pin and the three stored calibration
fields of the class (members pin, rzero, rload, atmoco2 of MQ135.h). -/
structure MQ135 where
  pin : ℕ
  rzero : ℝ
  rload : ℝ
  atmoco2 : ℝ

namespace MQ135

/-- MQ135 one argument constructor (src/MQ135.cpp lines 27 to 32). -/
noncomputable def mk1 (pin : ℕ) : MQ135 :=
  { pin := pin, rzero := RZERO, rload := RLOAD, atmoco2 := ATMOCO2 }

/-- MQ135 three argument constructor (src/MQ135.cpp lines 43 to 48):
the rl and ppm arguments are stored literally. -/
noncomputable def mk3 (pin : ℕ) (rl : ℝ) (ppm : ℝ) : MQ135 :=
  { pin := pin, rzero := RZERO, rload := rl, atmoco2 := ppm }

/-- getAtmoco2 (src/MQ135.cpp lines 58 to 63): default substituted on read. -/
noncomputable def getAtmoco2 (s : MQ135) : ℝ :=
  if s.atmoco2 = 0 then ATMOCO2 else s.atmoco2

/-- setAtmoco2 (src/MQ135.cpp lines 73 to 79): default substituted on write. -/
noncomputable def setAtmoco2 (s : MQ135) (ppm : ℝ) : MQ135 :=
  if ppm = 0 then { s with atmoco2 := ATMOCO2 } else { s with atmoco2 := ppm }

/-- getRload (src/MQ135.cpp lines 89 to 94): default substituted on read. -/
noncomputable def getRload (s : MQ135) : ℝ :=
  if s.rload = 0 then RLOAD else s.rload

/-- setRload (src/MQ135.cpp lines 104 to 110): default substituted on write. -/
noncomputable def setRload (s : MQ135) (r : ℝ) : MQ135 :=
  if r = 0 then { s with rload := RLOAD } else { s with rload := r }

/-- getRzero (src/MQ135.cpp lines 120 to 125): default substituted on read. -/
noncomputable def getRzero (s : MQ135) : ℝ :=
  if s.rzero = 0 then RZERO else s.rzero

/-- setRzero (src/MQ135.cpp lines 135 to 141): default substituted on write. -/
noncomputable def setRzero (s : MQ135) (r : ℝ) : MQ135 :=
  if r = 0 then { s with rzero := RZERO } else { s with rzero := r }

/-- getCorrectionFactor (src/MQ135.cpp lines 153 to 163). -/
noncomputable def getCorrectionFactor (t : ℝ) (h : ℝ) : ℝ :=
  if t < 20 then CORA * t * t - CORB * t + CORC - (h - 33) * CORD
  else CORE * t + CORF * h + CORG

/-- getResistance (src/MQ135.cpp lines 172 to 175): reads one raw sample from
the analog pin and applies the voltage divider relation to the raw stored
rload field. -/
noncomputable def getResistance (analogRead : ℕ → ℤ) (s : MQ135) : ℝ :=
  (1023 / ((analogRead s.pin : ℤ) : ℝ) - 1) * s.rload

/-- getCorrectedResistance (src/MQ135.cpp lines 188 to 190). -/
noncomputable def getCorrectedResistance (analogRead : ℕ → ℤ) (s : MQ135)
    (t : ℝ) (h : ℝ) : ℝ :=
  getResistance analogRead s / getCorrectionFactor t h

/-- getPPM (src/MQ135.cpp lines 199 to 201): power law over the raw stored
rzero field. -/
noncomputable def getPPM (analogRead : ℕ → ℤ) (s : MQ135) : ℝ :=
  PARA * (getResistance analogRead s / s.rzero) ^ (-PARB)

/-- getCorrectedPPM (src/MQ135.cpp lines 214 to 216). -/
noncomputable def getCorrectedPPM (analogRead : ℕ → ℤ) (s : MQ135)
    (t : ℝ) (h : ℝ) : ℝ :=
  PARA * (getCorrectedResistance analogRead s t h / s.rzero) ^ (-PARB)

/-- measureRZero (src/MQ135.cpp lines 225 to 227): inverts the power law at
the raw stored atmoco2 field. -/
noncomputable def measureRZero (analogRead : ℕ → ℤ) (s : MQ135) : ℝ :=
  getResistance analogRead s * (s.atmoco2 / PARA) ^ ((1 : ℝ) / PARB)

/-- measureCorrectedRZero (src/MQ135.cpp lines 240 to 242). -/
noncomputable def measureCorrectedRZero (analogRead : ℕ → ℤ) (s : MQ135)
    (t : ℝ) (h : ℝ) : ℝ :=
  getCorrectedResistance analogRead s t h * (s.atmoco2 / PARA) ^ ((1 : ℝ) / PARB)

/-- measureRZero in state passing form: the returned value together with the
post state of the object, to make the frame property of the method statable. -/
noncomputable def measureRZeroS (analogRead : ℕ → ℤ) (s : MQ135) : ℝ × MQ135 :=
  (measureRZero analogRead s, s)

/-- measureCorrectedRZero in state passing form: the returned value together
with the post state of the object. -/
noncomputable def measureCorrectedRZeroS (analogRead : ℕ → ℤ) (s : MQ135)
    (t : ℝ) (h : ℝ) : ℝ × MQ135 :=
  (measureCorrectedRZero analogRead s t h, s)

end MQ135

/-- One call to any of the three calibration setters, with its argument. -/
inductive SetterOp where
  | rzero (v : ℝ)
  | rload (v : ℝ)
  | atmoco2 (v : ℝ)

/-- Apply one setter call to an object state. -/
noncomputable def applyOp (s : MQ135) : SetterOp → MQ135
  | .rzero v => s.setRzero v
  | .rload v => s.setRload v
  | .atmoco2 v => s.setAtmoco2 v

/-- Apply a sequence of setter calls, left to right. -/
noncomputable def applyOps (s : MQ135) (ops : List SetterOp) : MQ135 :=
  ops.foldl applyOp s

/-- The power law concentration curve of the spec: ppm as a function of the
measured resistance and the reference resistance. -/
noncomputable def powerLaw (resistance : ℝ) (referenceResistance : ℝ) : ℝ :=
  PARA * (resistance / referenceResistance) ^ (-PARB)

/-- The power law constant PARA is positive. -/
theorem PARA_pos : (0 : ℝ) < PARA := by norm_num [PARA]

/-- The power law exponent PARB is positive. -/
theorem PARB_pos : (0 : ℝ) < PARB := by norm_num [PARB]

/-- The default reference resistance is nonzero. -/
theorem RZERO_ne_zero : RZERO ≠ 0 := by norm_num [RZERO]

/-- The default atmospheric baseline is positive. -/
theorem ATMOCO2_pos : (0 : ℝ) < ATMOCO2 := by norm_num [ATMOCO2]

/-- Key algebra of the round trip: feeding the measured reference resistance
back into the power law reproduces the baseline, for a positive resistance
and a positive baseline. -/
theorem roundTrip (R atmo : ℝ) (hR : 0 < R) (hatmo : 0 < atmo) :
    PARA * (R / (R * (atmo / PARA) ^ ((1 : ℝ) / PARB))) ^ (-PARB) = atmo := by
  have hPARA : (0 : ℝ) < PARA := PARA_pos
  have hbase : (0 : ℝ) < atmo / PARA := div_pos hatmo hPARA
  have hk : (0 : ℝ) < (atmo / PARA) ^ ((1 : ℝ) / PARB) :=
    Real.rpow_pos_of_pos hbase _
  have hfrac : R / (R * (atmo / PARA) ^ ((1 : ℝ) / PARB))
      = ((atmo / PARA) ^ ((1 : ℝ) / PARB))⁻¹ := by
    rw [div_mul_eq_div_div, div_self (ne_of_gt hR), one_div]
  rw [hfrac, Real.inv_rpow hk.le, Real.rpow_neg hk.le, inv_inv,
    ← Real.rpow_mul hbase.le, one_div_mul_cancel (ne_of_gt PARB_pos),
    Real.rpow_one]
  have hne : PARA ≠ 0 := ne_of_gt hPARA
  field_simp

/-- C3: getCorrectionFactor is piecewise with the boundary inclusive on the
high branch: for t below 20 it returns the quadratic branch
CORA t^2 - CORB t + CORC - (h - 33) CORD, and for t at or above 20, in
particular at exactly 20, it returns the linear branch CORE t + CORF h + CORG. -/
theorem claim_C3 (t h : ℝ) :
    (t < 20 → MQ135.getCorrectionFactor t h
      = CORA * t * t - CORB * t + CORC - (h - 33) * CORD) ∧
    (20 ≤ t → MQ135.getCorrectionFactor t h = CORE * t + CORF * h + CORG) := by
  constructor
  · intro ht
    simp [MQ135.getCorrectionFactor, if_pos ht]
  · intro ht
    simp [MQ135.getCorrectionFactor, if_neg (not_lt.mpr ht)]

/-- Witness for C3 at temperature 10 (quadratic branch) and at exactly 20
(linear branch). -/
theorem claim_C3_witness :
    (10 : ℝ) < 20 ∧ (20 : ℝ) ≤ 20 ∧
    MQ135.getCorrectionFactor 10 33
      = CORA * 10 * 10 - CORB * 10 + CORC - ((33 : ℝ) - 33) * CORD ∧
    MQ135.getCorrectionFactor 20 50 = CORE * 20 + CORF * 50 + CORG :=
  ⟨by norm_num, by norm_num,
    (claim_C3 10 33).1 (by norm_num), (claim_C3 20 50).2 (by norm_num)⟩

/-- C4: for each calibration parameter, set of zero followed by get returns
the built in default, and for nonzero v, set of v followed by get returns v. -/
theorem claim_C4 (s : MQ135) (v : ℝ) (hv : v ≠ 0) :
    (s.setRzero 0).getRzero = RZERO ∧ (s.setRzero v).getRzero = v ∧
    (s.setRload 0).getRload = RLOAD ∧ (s.setRload v).getRload = v ∧
    (s.setAtmoco2 0).getAtmoco2 = ATMOCO2 ∧ (s.setAtmoco2 v).getAtmoco2 = v := by
  refine ⟨?_, ?_, ?_, ?_, ?_, ?_⟩
  · simp [MQ135.setRzero, MQ135.getRzero, RZERO]
  · simp [MQ135.setRzero, MQ135.getRzero, hv]
  · simp [MQ135.setRload, MQ135.getRload, RLOAD]
  · simp [MQ135.setRload, MQ135.getRload, hv]
  · simp [MQ135.setAtmoco2, MQ135.getAtmoco2, ATMOCO2]
  · simp [MQ135.setAtmoco2, MQ135.getAtmoco2, hv]

/-- Witness for C4 on a default constructed object with v equal to 5. -/
theorem claim_C4_witness :
    (5 : ℝ) ≠ 0 ∧ ((MQ135.mk1 0).setRzero 0).getRzero = RZERO ∧
    ((MQ135.mk1 0).setRzero 5).getRzero = 5 :=
  ⟨by norm_num, (claim_C4 (MQ135.mk1 0) 5 (by norm_num)).1,
    (claim_C4 (MQ135.mk1 0) 5 (by norm_num)).2.1⟩

/-- C6: getResistance returns the voltage divider relation applied to the raw
sample and the stored load resistance; at sample 200 and load resistance 10
the value is 41.15. -/
theorem claim_C6 (analogRead : ℕ → ℤ) (s : MQ135) :
    MQ135.getResistance analogRead s
      = (1023 / ((analogRead s.pin : ℤ) : ℝ) - 1) * s.rload ∧
    MQ135.getResistance (fun _ => 200)
      { pin := 0, rzero := RZERO, rload := 10, atmoco2 := ATMOCO2 } = 41.15 := by
  refine ⟨rfl, ?_⟩
  simp [MQ135.getResistance]
  norm_num

/-- C7: getPPM and getCorrectedPPM apply the fixed power law curve to the raw
and the corrected resistance respectively, over the stored reference
resistance field, and measureRZero inverts the curve at the stored
atmospheric baseline field. -/
theorem claim_C7 (analogRead : ℕ → ℤ) (s : MQ135) (t h : ℝ) :
    MQ135.getPPM analogRead s
      = powerLaw (MQ135.getResistance analogRead s) s.rzero ∧
    MQ135.getCorrectedPPM analogRead s t h
      = powerLaw (MQ135.getCorrectedResistance analogRead s t h) s.rzero ∧
    MQ135.measureRZero analogRead s
      = MQ135.getResistance analogRead s * (s.atmoco2 / PARA) ^ ((1 : ℝ) / PARB) :=
  ⟨rfl, rfl, rfl⟩

/-- C8: measureRZero and measureCorrectedRZero leave every stored field of the
object unchanged. -/
theorem claim_C8 (analogRead : ℕ → ℤ) (s : MQ135) (t h : ℝ) :
    ((MQ135.measureRZeroS analogRead s).2.rload = s.rload
      ∧ (MQ135.measureRZeroS analogRead s).2.rzero = s.rzero
      ∧ (MQ135.measureRZeroS analogRead s).2.atmoco2 = s.atmoco2
      ∧ (MQ135.measureRZeroS analogRead s).2.pin = s.pin)
    ∧ ((MQ135.measureCorrectedRZeroS analogRead s t h).2.rload = s.rload
      ∧ (MQ135.measureCorrectedRZeroS analogRead s t h).2.rzero = s.rzero
      ∧ (MQ135.measureCorrectedRZeroS analogRead s t h).2.atmoco2 = s.atmoco2
      ∧ (MQ135.measureCorrectedRZeroS analogRead s t h).2.pin = s.pin) :=
  ⟨⟨rfl, rfl, rfl, rfl⟩, ⟨rfl, rfl, rfl, rfl⟩⟩

/-- C1 counterexample: at the positive raw sample 1023 with the default
constructed object (whose stored atmospheric baseline is positive), the
measured reference resistance is 0, the setter then stores the default, and
the concentration read back is 0 rather than the stored baseline. -/
theorem claim_C1_counterexample :
    (0 : ℤ) < 1023 ∧ 0 < (MQ135.mk1 0).atmoco2 ∧
    MQ135.getPPM (fun _ => 1023)
      ((MQ135.mk1 0).setRzero (MQ135.measureRZero (fun _ => 1023) (MQ135.mk1 0)))
      ≠ (MQ135.mk1 0).atmoco2 := by
  refine ⟨by norm_num, by norm_num [MQ135.mk1, ATMOCO2], ?_⟩
  have hr0 : MQ135.measureRZero (fun _ => 1023) (MQ135.mk1 0) = 0 := by
    norm_num [MQ135.measureRZero, MQ135.getResistance, MQ135.mk1]
  rw [hr0]
  have hstate : (MQ135.mk1 0).setRzero 0 = { MQ135.mk1 0 with rzero := RZERO } := by
    simp [MQ135.setRzero]
  rw [hstate]
  have hz : ((0 : ℝ)) ^ (-PARB) = 0 := Real.zero_rpow (by norm_num [PARB])
  norm_num [MQ135.getPPM, MQ135.getResistance, MQ135.mk1, hz, ATMOCO2]

/-- C1 amended: for every raw sample strictly between 0 and the full scale
1023, positive stored load resistance and positive stored atmospheric
baseline, measuring the reference resistance, committing it with the setter
and reading the concentration at the same raw sample yields the stored
baseline exactly (in real arithmetic). -/
theorem claim_C1_amended (pin : ℕ) (rz rl atmo : ℝ) (analogRead : ℕ → ℤ)
    (h0 : 0 < analogRead pin) (h1 : analogRead pin < 1023)
    (hrl : 0 < rl) (hatmo : 0 < atmo) :
    MQ135.getPPM analogRead
      ((MQ135.mk pin rz rl atmo).setRzero
        (MQ135.measureRZero analogRead (MQ135.mk pin rz rl atmo))) = atmo := by
  have hval : (0 : ℝ) < ((analogRead pin : ℤ) : ℝ) := by exact_mod_cast h0
  have hval2 : ((analogRead pin : ℤ) : ℝ) < 1023 := by exact_mod_cast h1
  have hR : 0 < (1023 / ((analogRead pin : ℤ) : ℝ) - 1) * rl :=
    mul_pos (sub_pos.mpr ((one_lt_div hval).mpr hval2)) hrl
  have hk : (0 : ℝ) < (atmo / PARA) ^ ((1 : ℝ) / PARB) :=
    Real.rpow_pos_of_pos (div_pos hatmo PARA_pos) _
  have hr0 : MQ135.measureRZero analogRead (MQ135.mk pin rz rl atmo)
      = (1023 / ((analogRead pin : ℤ) : ℝ) - 1) * rl
        * (atmo / PARA) ^ ((1 : ℝ) / PARB) := rfl
  have hr0ne : (1023 / ((analogRead pin : ℤ) : ℝ) - 1) * rl
      * (atmo / PARA) ^ ((1 : ℝ) / PARB) ≠ 0 := ne_of_gt (mul_pos hR hk)
  rw [hr0]
  simp only [MQ135.setRzero, if_neg hr0ne]
  show PARA * ((1023 / ((analogRead pin : ℤ) : ℝ) - 1) * rl
      / ((1023 / ((analogRead pin : ℤ) : ℝ) - 1) * rl
        * (atmo / PARA) ^ ((1 : ℝ) / PARB))) ^ (-PARB) = atmo
  exact roundTrip _ atmo hR hatmo

/-- Witness for the amended C1 at raw sample 200 with the default calibration
values. -/
theorem claim_C1_amended_witness :
    (0 : ℤ) < 200 ∧ (200 : ℤ) < 1023 ∧ (0 : ℝ) < 10 ∧ (0 : ℝ) < 397.13 ∧
    MQ135.getPPM (fun _ => 200)
      ((MQ135.mk 0 76.63 10 397.13).setRzero
        (MQ135.measureRZero (fun _ => 200) (MQ135.mk 0 76.63 10 397.13)))
      = 397.13 :=
  ⟨by norm_num, by norm_num, by norm_num, by norm_num,
    claim_C1_amended 0 76.63 10 397.13 (fun _ => 200) (by norm_num) (by norm_num)
      (by norm_num) (by norm_num)⟩

/-- C2 counterexample: with a zero load resistance override, getResistance at
raw sample 200 differs from the value the default load resistance would give;
with a zero baseline override, measureRZero differs from the value the
default baseline would give. -/
theorem claim_C2_counterexample :
    MQ135.getResistance (fun _ => 200) (MQ135.mk3 0 0 ATMOCO2)
      ≠ (1023 / (200 : ℝ) - 1) * RLOAD ∧
    MQ135.measureRZero (fun _ => 200) (MQ135.mk3 0 RLOAD 0)
      ≠ MQ135.getResistance (fun _ => 200) (MQ135.mk3 0 RLOAD 0)
        * (ATMOCO2 / PARA) ^ ((1 : ℝ) / PARB) := by
  constructor
  · norm_num [MQ135.getResistance, MQ135.mk3, RLOAD]
  · have hz : ((0 : ℝ) / PARA) ^ ((1 : ℝ) / PARB) = 0 := by
      rw [zero_div]
      exact Real.zero_rpow (one_div_ne_zero (ne_of_gt PARB_pos))
    have hL : MQ135.measureRZero (fun _ => 200) (MQ135.mk3 0 RLOAD 0) = 0 := by
      have hrw : MQ135.measureRZero (fun _ => 200) (MQ135.mk3 0 RLOAD 0)
          = MQ135.getResistance (fun _ => 200) (MQ135.mk3 0 RLOAD 0)
            * ((0 : ℝ) / PARA) ^ ((1 : ℝ) / PARB) := rfl
      rw [hrw, hz, mul_zero]
    have hRpos : 0 < MQ135.getResistance (fun _ => 200) (MQ135.mk3 0 RLOAD 0) := by
      norm_num [MQ135.getResistance, MQ135.mk3, RLOAD]
    have hkpos : 0 < (ATMOCO2 / PARA) ^ ((1 : ℝ) / PARB) :=
      Real.rpow_pos_of_pos (div_pos ATMOCO2_pos PARA_pos) _
    rw [hL]
    exact ne_of_lt (mul_pos hRpos hkpos)

/-- C2 amended: zero overrides passed to the three argument constructor are
stored literally; the getters substitute the defaults on read, but
getResistance multiplies by the literal zero load resistance field and
measureRZero uses the literal zero baseline field, so both return 0 instead
of behaving as if the defaults were in effect. -/
theorem claim_C2_amended (pin : ℕ) (rl ppm : ℝ) (analogRead : ℕ → ℤ) :
    (MQ135.mk3 pin 0 ppm).rload = 0 ∧
    (MQ135.mk3 pin rl 0).atmoco2 = 0 ∧
    (MQ135.mk3 pin 0 ppm).getRload = RLOAD ∧
    (MQ135.mk3 pin rl 0).getAtmoco2 = ATMOCO2 ∧
    MQ135.getResistance analogRead (MQ135.mk3 pin 0 ppm) = 0 ∧
    MQ135.measureRZero analogRead (MQ135.mk3 pin rl 0) = 0 := by
  have hz : ((0 : ℝ) / PARA) ^ ((1 : ℝ) / PARB) = 0 := by
    rw [zero_div]
    exact Real.zero_rpow (one_div_ne_zero (ne_of_gt PARB_pos))
  refine ⟨rfl, rfl, ?_, ?_, ?_, ?_⟩
  · simp [MQ135.getRload, MQ135.mk3]
  · simp [MQ135.getAtmoco2, MQ135.mk3]
  · simp [MQ135.getResistance, MQ135.mk3]
  · have hrw : MQ135.measureRZero analogRead (MQ135.mk3 pin rl 0)
        = MQ135.getResistance analogRead (MQ135.mk3 pin rl 0)
          * ((0 : ℝ) / PARA) ^ ((1 : ℝ) / PARB) := rfl
    rw [hrw, hz, mul_zero]

/-- C5 counterexample: after setRzero of 5 and then setRzero of 0, the stored
field holds the default constant RZERO, which is not zero: the setter
overwrote the literal stored field with the default. -/
theorem claim_C5_counterexample :
    (((MQ135.mk1 0).setRzero 5).setRzero 0).rzero = RZERO ∧ RZERO ≠ 0 := by
  constructor
  · simp [MQ135.setRzero]
  · exact RZERO_ne_zero

/-- C5 amended: the zero means unset encoding substitutes the default on
write in the setters: a set of zero after a set of a nonzero value overwrites
the stored field with the default constant, and get then returns that
default; the substitution on read in the getters applies when a literal zero
sits in the field, as after a zero override in the three argument
constructor. -/
theorem claim_C5_amended (s : MQ135) (v : ℝ) (pin : ℕ) (ppm : ℝ) :
    ((s.setRzero v).setRzero 0).rzero = RZERO ∧
    ((s.setRzero v).setRzero 0).getRzero = RZERO ∧
    ((s.setRload v).setRload 0).rload = RLOAD ∧
    ((s.setRload v).setRload 0).getRload = RLOAD ∧
    ((s.setAtmoco2 v).setAtmoco2 0).atmoco2 = ATMOCO2 ∧
    ((s.setAtmoco2 v).setAtmoco2 0).getAtmoco2 = ATMOCO2 ∧
    (MQ135.mk3 pin 0 ppm).rload = 0 ∧
    (MQ135.mk3 pin 0 ppm).getRload = RLOAD := by
  refine ⟨?_, ?_, ?_, ?_, ?_, ?_, rfl, ?_⟩
  · simp [MQ135.setRzero]
  · simp [MQ135.setRzero, MQ135.getRzero, RZERO]
  · simp [MQ135.setRload]
  · simp [MQ135.setRload, MQ135.getRload, RLOAD]
  · simp [MQ135.setAtmoco2]
  · simp [MQ135.setAtmoco2, MQ135.getAtmoco2, ATMOCO2]
  · simp [MQ135.getRload, MQ135.mk3]

/-- After any sequence of setter calls, a state whose stored reference
resistance field is nonzero keeps it nonzero. -/
theorem applyOps_rzero_ne_zero (s : MQ135) (ops : List SetterOp)
    (h : s.rzero ≠ 0) : (applyOps s ops).rzero ≠ 0 := by
  induction ops generalizing s with
  | nil => exact h
  | cons op ops ih =>
      apply ih
      cases op with
      | rzero v =>
          by_cases hv : v = 0
          · simpa [applyOp, MQ135.setRzero, hv] using RZERO_ne_zero
          · simp [applyOp, MQ135.setRzero, hv]
      | rload v =>
          by_cases hv : v = 0 <;> simpa [applyOp, MQ135.setRload, hv] using h
      | atmoco2 v =>
          by_cases hv : v = 0 <;> simpa [applyOp, MQ135.setAtmoco2, hv] using h

/-- C10: starting from the one argument constructor, after any sequence of
setter calls the stored reference resistance field is never zero, and getPPM
and getCorrectedPPM, which divide by the raw field, agree with the power law
curve evaluated at the defaulted getter getRzero. -/
theorem claim_C10 (pin : ℕ) (ops : List SetterOp) (analogRead : ℕ → ℤ)
    (t h : ℝ) :
    (applyOps (MQ135.mk1 pin) ops).rzero ≠ 0 ∧
    MQ135.getPPM analogRead (applyOps (MQ135.mk1 pin) ops)
      = powerLaw (MQ135.getResistance analogRead (applyOps (MQ135.mk1 pin) ops))
          ((applyOps (MQ135.mk1 pin) ops).getRzero) ∧
    MQ135.getCorrectedPPM analogRead (applyOps (MQ135.mk1 pin) ops) t h
      = powerLaw
          (MQ135.getCorrectedResistance analogRead (applyOps (MQ135.mk1 pin) ops) t h)
          ((applyOps (MQ135.mk1 pin) ops).getRzero) := by
  have hne : (applyOps (MQ135.mk1 pin) ops).rzero ≠ 0 :=
    applyOps_rzero_ne_zero _ _ RZERO_ne_zero
  have hget : (applyOps (MQ135.mk1 pin) ops).getRzero
      = (applyOps (MQ135.mk1 pin) ops).rzero := by
    simp [MQ135.getRzero, hne]
  exact ⟨hne, by rw [hget]; rfl, by rw [hget]; rfl⟩

end MQ135Spec
